import Mathlib

/-!
Verification development for the Action Registry of an admin-agent tool
backend (source file: src/services/actionRegistry.ts).

Modelling conventions of the shallow embedding:
* Timestamps are integers (milliseconds since the epoch).  The source's
  ISO-string dates are represented by their millisecond value; the call
  time (`new Date()` / `Date.now()`) is injected as an explicit `now`
  parameter.  `endDate.setDate(now.getDate() + 7)` adds exactly seven
  calendar days while keeping the time of day, i.e. `now + 7 * msPerDay`
  in a fixed-offset timezone, and likewise for 30 and 365 days.
* The two external stores (the Firestore document store and the RTDB
  live tree) are association lists keyed by id inside a single `Store`
  record.  The flags `firestoreFail` and `rtdbFail` model an outage of
  the respective store: while a flag is set, every primitive operation
  on that store throws (returns `Except.error`) and has no effect.
* JavaScript exceptions become `Except Err`; `Err` tags each thrown
  message with the error class of the specification's taxonomy
  (UnknownOperation / InvalidArguments / NotFound / StoreError).  A JS
  `catch` block that rethrows with a prefixed message is modelled by
  `wrapErr`, which keeps the tag and prefixes the message.
* Each handler takes the store and returns the result paired with the
  store after the handler's effects.
-/

/-- Milliseconds in one day, used by the date arithmetic of
`grantSubscription` (source lines 94-101). -/
def msPerDay : Int := 86400000

/-- Error values of the dispatch taxonomy (spec section 7); the payload is
the JavaScript error message. -/
inductive Err where
  | unknownOperation (msg : String)
  | invalidArguments (msg : String)
  | notFound (msg : String)
  | storeError (msg : String)
deriving Repr, DecidableEq

/-- Rethrow with a prefixed message, keeping the error class: models
`catch (e) { throw new Error(prefix + e.message) }`. -/
def wrapErr (pre : String) : Err → Err
  | .unknownOperation m => .unknownOperation (pre ++ m)
  | .invalidArguments m => .invalidArguments (pre ++ m)
  | .notFound m => .notFound (pre ++ m)
  | .storeError m => .storeError (pre ++ m)

/-- One inbox message (src/types, as used at source lines 157-163). -/
structure InboxMessage where
  id : String
  text : String
  date : Int
  read : Bool
  type : String
deriving Repr, DecidableEq

/-- End marker of a subscription history entry: either a concrete end
date or the `LIFETIME` sentinel string (source line 108). -/
inductive HistEnd where
  | date (t : Int)
  | lifetime
deriving Repr, DecidableEq

/-- One subscription history entry (src/types, as built at source lines
103-115). -/
structure SubscriptionHistoryEntry where
  id : String
  tier : String
  level : String
  startDate : Int
  endDate : HistEnd
  durationHours : Int
  price : Int
  originalPrice : Int
  isFree : Bool
  grantSource : String
  grantedBy : String
deriving Repr, DecidableEq

/-- A user record with the fields the registry reads or writes. -/
structure User where
  id : String
  name : String
  email : String
  role : String
  credits : Int
  isPremium : Bool
  subscriptionTier : String
  subscriptionLevel : String
  subscriptionEndDate : Option Int
  isLocked : Bool
  inbox : List InboxMessage
  subscriptionHistory : List SubscriptionHistoryEntry
  grantedByAdmin : Bool
  lastActiveTime : Option Int
  dailyAiCount : Int
  dailyAiDate : String
deriving Repr, DecidableEq

/-- A weekly test definition (src/types, as built at source lines
179-191). -/
structure WeeklyTest where
  id : String
  name : String
  description : String
  isActive : Bool
  classLevel : String
  questions : List String
  totalQuestions : Int
  passingScore : Int
  createdAt : Int
  durationMinutes : Int
  selectedSubjects : List String
deriving Repr, DecidableEq

/-- The global settings singleton with the fields the registry touches. -/
structure SystemSettings where
  noticeText : String
  weeklyTests : List WeeklyTest
  isAiEnabled : Bool
  themeColor : String
  maintenanceMode : Bool
deriving Repr, DecidableEq

/-- One AI-interaction log document (collection `ai_interactions`). -/
structure LogEntry where
  timestamp : Int
  data : String
deriving Repr, DecidableEq

/-- The combined state of both external stores.  `users` is the Firestore
`users` collection (documents in collection order), `liveUsers` the RTDB
`users/` tree, `settings` the RTDB `system_settings` node and `logs` the
Firestore `ai_interactions` collection.  `firestoreFail` / `rtdbFail`
model an outage of the respective store. -/
structure Store where
  users : List (String × User)
  liveUsers : List (String × User)
  settings : Option SystemSettings
  logs : List LogEntry
  firestoreFail : Bool
  rtdbFail : Bool
deriving Repr, DecidableEq

/-- Look up a key in an association list. -/
def lookupKey {α : Type} (l : List (String × α)) (k : String) : Option α :=
  match l.find? (fun a => a.1 == k) with
  | some a => some a.2
  | none => none

/-- Overwrite the binding of `k` (or append it when absent). -/
def setKey {α : Type} (l : List (String × α)) (k : String) (v : α) : List (String × α) :=
  if l.any (fun a => a.1 == k) then
    l.map (fun a => if a.1 == k then (k, v) else a)
  else
    l ++ [(k, v)]

/-- Drop the binding of `k` (no effect when the key is absent, exactly as
Firestore `deleteDoc` / RTDB `remove` succeed on a missing record). -/
def removeKey {α : Type} (l : List (String × α)) (k : String) : List (String × α) :=
  l.filter (fun a => !(a.1 == k))

/-- Firestore `getDocs(collection(db, "users"))`: fails while the
document store is down, otherwise returns every user document. -/
def fsGetUsersDocs (st : Store) : Except Err (List User) :=
  if st.firestoreFail then .error (.storeError "firestore read failed")
  else .ok (st.users.map Prod.snd)

/-- Firestore `deleteDoc(doc(db, "users", userId))`. -/
def fsDeleteUser (st : Store) (userId : String) : Except Err Store :=
  if st.firestoreFail then .error (.storeError "firestore delete failed")
  else .ok { st with users := removeKey st.users userId }

/-- RTDB `get(ref(rtdb, users/userId))`: distinguishes a failed read
from a successful read of an absent record. -/
def rtdbGetUser (st : Store) (userId : String) : Except Err (Option User) :=
  if st.rtdbFail then .error (.storeError "rtdb read failed")
  else .ok (lookupKey st.liveUsers userId)

/-- RTDB `remove(ref(rtdb, users/userId))`. -/
def rtdbRemoveUser (st : Store) (userId : String) : Except Err Store :=
  if st.rtdbFail then .error (.storeError "rtdb remove failed")
  else .ok { st with liveUsers := removeKey st.liveUsers userId }

/-- Modelled from the spec: `saveUserToLive` is imported from
`../firebase`, a module that is not among the given source files.  Per
the spec (section 4.2, updateUser: "Read live record, shallow-merge
supplied fields over it, write merged record back in full", and the
glossary's "live record"), it writes the user's full record to the live
store under the user's own id, failing while that store is down. -/
def saveUserToLive (st : Store) (u : User) : Except Err Store :=
  if st.rtdbFail then .error (.storeError "rtdb write failed")
  else .ok { st with liveUsers := setKey st.liveUsers u.id u }

/-- Modelled from the spec: `saveSystemSettings` is imported from
`../firebase`, not among the given source files.  Per the spec (section
3: "SystemSettings ... Read-modify-write as a whole"), it overwrites the
settings singleton with the supplied record. -/
def saveSystemSettings (st : Store) (s : SystemSettings) : Except Err Store :=
  if st.rtdbFail then .error (.storeError "rtdb write failed")
  else .ok { st with settings := some s }

/-- Subscription plan union type (source line 94). -/
inductive Plan where
  | WEEKLY
  | MONTHLY
  | YEARLY
  | LIFETIME
deriving Repr, DecidableEq

/-- The string carried by a `Plan` value. -/
def Plan.toStr : Plan → String
  | .WEEKLY => "WEEKLY"
  | .MONTHLY => "MONTHLY"
  | .YEARLY => "YEARLY"
  | .LIFETIME => "LIFETIME"

/-- Subscription level union type (source line 94). -/
inductive Level where
  | BASIC
  | ULTRA
deriving Repr, DecidableEq

/-- The string carried by a `Level` value. -/
def Level.toStr : Level → String
  | .BASIC => "BASIC"
  | .ULTRA => "ULTRA"

/-- Scan filter union type (source line 198; the union is anonymous in
the source, `Filter` is taken by Mathlib). -/
inductive ScanFilter where
  | ALL
  | PREMIUM
  | FREE
  | INACTIVE
deriving Repr, DecidableEq

/-- A `Partial User` updates mapping: a field that is `none` is absent
from the mapping; for `subscriptionEndDate` and `lastActiveTime`,
`some none` models a key that is present with value `undefined`
(JavaScript object spread overwrites with `undefined` in that case). -/
structure UserPatch where
  id : Option String := none
  name : Option String := none
  email : Option String := none
  role : Option String := none
  credits : Option Int := none
  isPremium : Option Bool := none
  subscriptionTier : Option String := none
  subscriptionLevel : Option String := none
  subscriptionEndDate : Option (Option Int) := none
  isLocked : Option Bool := none
  inbox : Option (List InboxMessage) := none
  subscriptionHistory : Option (List SubscriptionHistoryEntry) := none
  grantedByAdmin : Option Bool := none
  lastActiveTime : Option (Option Int) := none
  dailyAiCount : Option Int := none
  dailyAiDate : Option String := none
deriving Repr, DecidableEq

/-- JavaScript object spread `{ ...currentUser, ...updates }` (source
line 77): every field named in the mapping takes the supplied value,
every other field keeps its current value. -/
def mergeUser (cur : User) (p : UserPatch) : User where
  id := p.id.getD cur.id
  name := p.name.getD cur.name
  email := p.email.getD cur.email
  role := p.role.getD cur.role
  credits := p.credits.getD cur.credits
  isPremium := p.isPremium.getD cur.isPremium
  subscriptionTier := p.subscriptionTier.getD cur.subscriptionTier
  subscriptionLevel := p.subscriptionLevel.getD cur.subscriptionLevel
  subscriptionEndDate := p.subscriptionEndDate.getD cur.subscriptionEndDate
  isLocked := p.isLocked.getD cur.isLocked
  inbox := p.inbox.getD cur.inbox
  subscriptionHistory := p.subscriptionHistory.getD cur.subscriptionHistory
  grantedByAdmin := p.grantedByAdmin.getD cur.grantedByAdmin
  lastActiveTime := p.lastActiveTime.getD cur.lastActiveTime
  dailyAiCount := p.dailyAiCount.getD cur.dailyAiCount
  dailyAiDate := p.dailyAiDate.getD cur.dailyAiDate

/-- Handler `deleteUser` (source lines 57-65): delete the Firestore
document, then remove the RTDB record, both inside one try block whose
catch wraps the error message. -/
def deleteUser (st : Store) (userId : String) : Except Err String × Store :=
  match fsDeleteUser st userId with
  | .error e => (.error (wrapErr ("Failed to delete user " ++ userId ++ ": ") e), st)
  | .ok st1 =>
    match rtdbRemoveUser st1 userId with
    | .error e => (.error (wrapErr ("Failed to delete user " ++ userId ++ ": ") e), st1)
    | .ok st2 =>
      (.ok ("User " ++ userId ++ " deleted successfully from Firestore and RTDB."), st2)

/-- Handler `updateUser` (source lines 67-84): read the live record,
throw `User not found` when absent, shallow-merge the updates over it
and write the merged record back in full; the catch block wraps any
error with `Failed to update user: `. -/
def updateUser (st : Store) (userId : String) (updates : UserPatch) :
    Except Err String × Store :=
  match rtdbGetUser st userId with
  | .error e => (.error (wrapErr "Failed to update user: " e), st)
  | .ok none => (.error (wrapErr "Failed to update user: " (.notFound "User not found")), st)
  | .ok (some currentUser) =>
    let updatedUser := mergeUser currentUser updates
    match saveUserToLive st updatedUser with
    | .error e => (.error (wrapErr "Failed to update user: " e), st)
    | .ok st1 => (.ok ("User " ++ userId ++ " updated."), st1)

/-- Handler `banUser` (source lines 86-88): delegates to `updateUser`
with the lock flag set; `reason` is accepted and ignored. -/
def banUser (st : Store) (userId : String) (reason : String) :
    Except Err String × Store :=
  updateUser st userId { isLocked := some true }

/-- Handler `unbanUser` (source lines 90-92). -/
def unbanUser (st : Store) (userId : String) : Except Err String × Store :=
  updateUser st userId { isLocked := some false }

/-- The `endDate` computed by `grantSubscription` (source lines 95-101):
`endDate.setDate(now.getDate() + n)` adds exactly `n` days to the call
time, and LIFETIME yields `null` (no end date). -/
def grantEndDate (now : Int) : Plan → Option Int
  | .WEEKLY => some (now + 7 * msPerDay)
  | .MONTHLY => some (now + 30 * msPerDay)
  | .YEARLY => some (now + 365 * msPerDay)
  | .LIFETIME => none

/-- The `historyEntry` built by `grantSubscription` (source lines
103-115): an administrative, zero-cost, agent-granted entry whose end
marker is the computed end date or the `LIFETIME` sentinel. -/
def grantHistoryEntry (now : Int) (plan : Plan) (level : Level) :
    SubscriptionHistoryEntry :=
  { id := "grant-" ++ toString now
    tier := plan.toStr
    level := level.toStr
    startDate := now
    endDate := match grantEndDate now plan with | some t => .date t | none => .lifetime
    durationHours := 0
    price := 0
    originalPrice := 0
    isFree := true
    grantSource := "ADMIN"
    grantedBy := "AI_AGENT" }

/-- The updates mapping `grantSubscription` passes to `updateUser`
(source lines 124-131); `subscriptionEndDate` is the key-present-with-
`undefined` case when the plan is LIFETIME. -/
def grantPatch (now : Int) (plan : Plan) (level : Level) (user : User) : UserPatch :=
  { subscriptionTier := some plan.toStr
    subscriptionLevel := some level.toStr
    subscriptionEndDate := some (grantEndDate now plan)
    isPremium := some true
    subscriptionHistory := some (grantHistoryEntry now plan level :: user.subscriptionHistory)
    grantedByAdmin := some true }

/-- Handler `grantSubscription` (source lines 94-132): compute the end
date from the plan, build the administrative history entry, read the
user (throwing `User not found` when absent), prepend the entry to the
user's history and delegate the write to `updateUser`. -/
def grantSubscription (st : Store) (now : Int) (userId : String)
    (plan : Plan) (level : Level) : Except Err String × Store :=
  match rtdbGetUser st userId with
  | .error e => (.error e, st)
  | .ok none => (.error (.notFound "User not found"), st)
  | .ok (some user) => updateUser st userId (grantPatch now plan level user)

/-- Handler `sendInboxMessage` (source lines 152-168): read the user
(throwing `User not found` when absent), prepend an unread TEXT message
and persist the inbox via `updateUser`; returns its own confirmation. -/
def sendInboxMessage (st : Store) (now : Int) (userId : String) (text : String) :
    Except Err String × Store :=
  match rtdbGetUser st userId with
  | .error e => (.error e, st)
  | .ok none => (.error (.notFound "User not found"), st)
  | .ok (some user) =>
    let newMsg : InboxMessage :=
      { id := "msg-" ++ toString now
        text := text
        date := now
        read := false
        type := "TEXT" }
    let updatedInbox := newMsg :: user.inbox
    match updateUser st userId { inbox := some updatedInbox } with
    | (.error e, st1) => (.error e, st1)
    | (.ok _, st1) => (.ok ("Message sent to " ++ user.name ++ "."), st1)

/-- Helper `getAllUsers` (source lines 36-44): a failed collection read
is caught and turned into the empty list. -/
def getAllUsers (st : Store) : List User :=
  match fsGetUsersDocs st with
  | .error _ => []
  | .ok users => users

/-- Helper `getSettings` (source lines 47-53): returns `none` both when
the settings node is absent and when the read fails. -/
def getSettings (st : Store) : Option SystemSettings :=
  if st.rtdbFail then none else st.settings

/-- The redacted user summary produced by `scanUsers` (source line 210). -/
structure UserSummary where
  id : String
  name : String
  email : String
  role : String
  credits : Int
  tier : String
deriving Repr, DecidableEq

/-- Projection of a full user record to its summary (source line 210). -/
def summarize (u : User) : UserSummary :=
  { id := u.id
    name := u.name
    email := u.email
    role := u.role
    credits := u.credits
    tier := u.subscriptionTier }

/-- Handler `scanUsers` (source lines 198-211).  `monthAgo` is the
cutoff the source computes at call time as `new Date()` shifted back one
calendar month (lines 205-206); calendar arithmetic is abstracted by
passing that cutoff timestamp directly. -/
def scanUsers (st : Store) (filter : ScanFilter) (monthAgo : Int) : List UserSummary :=
  let users := getAllUsers st
  let result : List User :=
    match filter with
    | .ALL => users
    | .PREMIUM => users.filter (fun u => u.isPremium)
    | .FREE => users.filter (fun u => !u.isPremium)
    | .INACTIVE =>
      users.filter (fun u =>
        match u.lastActiveTime with
        | none => true
        | some t => decide (t < monthAgo))
  result.map summarize

/-- Insert a log entry into a list sorted by timestamp descending. -/
def insertByTsDesc (e : LogEntry) : List LogEntry → List LogEntry
  | [] => [e]
  | x :: xs => if e.timestamp ≥ x.timestamp then e :: x :: xs else x :: insertByTsDesc e xs

/-- Sort log entries by timestamp descending. -/
def sortByTsDesc : List LogEntry → List LogEntry
  | [] => []
  | x :: xs => insertByTsDesc x (sortByTsDesc xs)

/-- Firestore `query(collection(db, "ai_interactions"),
orderBy("timestamp", "desc"), limitToLast(limit))` (source line 215):
order descending, then keep the last `limit` rows of that ordering. -/
def fsQueryLogs (st : Store) (limit : Int) : Except Err (List LogEntry) :=
  if st.firestoreFail then .error (.storeError "firestore query failed")
  else
    let d := sortByTsDesc st.logs
    .ok (d.drop (d.length - limit.toNat))

/-- Handler `getRecentLogs` (source lines 213-219): a failed query is
caught and turned into the empty list. -/
def getRecentLogs (st : Store) (limit : Int) : List LogEntry :=
  match fsQueryLogs st limit with
  | .error _ => []
  | .ok l => l

/-- Handler `broadcastMessage` (source lines 134-150): set the notice
banner text on the settings singleton; when the settings cannot be read
it returns a plain failure string rather than throwing. -/
def broadcastMessage (st : Store) (message : String) : Except Err String × Store :=
  match getSettings st with
  | some settings =>
    match saveSystemSettings st { settings with noticeText := message } with
    | .error e => (.error e, st)
    | .ok st1 => (.ok "Broadcast banner updated successfully.", st1)
  | none => (.ok "Failed to fetch settings.", st)

/-- Handler `createWeeklyTest` (source lines 170-196): append an
empty-bodied test to the settings singleton. -/
def createWeeklyTest (st : Store) (now : Int) (name subject : String)
    (questionCount : Int) : Except Err String × Store :=
  match getSettings st with
  | none => (.error (.notFound "Settings not found"), st)
  | some settings =>
    let newTest : WeeklyTest :=
      { id := "test-" ++ toString now
        name := name
        description := "Subject: " ++ subject
        isActive := true
        classLevel := "10"
        questions := []
        totalQuestions := questionCount
        passingScore := 40
        createdAt := now
        durationMinutes := 60
        selectedSubjects := [subject] }
    match saveSystemSettings st { settings with weeklyTests := settings.weeklyTests ++ [newTest] } with
    | .error e => (.error e, st)
    | .ok st1 => (.ok ("Weekly Test \"" ++ name ++ "\" created (Empty Questions)."), st1)

/-- A partial settings mapping for `updateSystemSettings`. -/
structure SettingsPatch where
  noticeText : Option String := none
  weeklyTests : Option (List WeeklyTest) := none
  isAiEnabled : Option Bool := none
  themeColor : Option String := none
  maintenanceMode : Option Bool := none
deriving Repr, DecidableEq

/-- Spread `{ ...current, ...updates }` for the settings singleton
(source line 225). -/
def mergeSettings (cur : SystemSettings) (p : SettingsPatch) : SystemSettings where
  noticeText := p.noticeText.getD cur.noticeText
  weeklyTests := p.weeklyTests.getD cur.weeklyTests
  isAiEnabled := p.isAiEnabled.getD cur.isAiEnabled
  themeColor := p.themeColor.getD cur.themeColor
  maintenanceMode := p.maintenanceMode.getD cur.maintenanceMode

/-- Handler `updateSystemSettings` (source lines 221-231). -/
def updateSystemSettings (st : Store) (updates : SettingsPatch) :
    Except Err String × Store :=
  match getSettings st with
  | none => (.error (wrapErr "Failed to update settings: " (.notFound "Settings not found")), st)
  | some current =>
    match saveSystemSettings st (mergeSettings current updates) with
    | .error e => (.error (wrapErr "Failed to update settings: " e), st)
    | .ok st1 => (.ok "System Settings updated successfully.", st1)

/-- A JSON value as produced by the calling agent's tool-call arguments. -/
inductive JsonVal where
  | str (s : String)
  | num (n : Int)
  | bool (b : Bool)
  | obj (fields : List (String × JsonVal))

/-- The type of one declared parameter in a tool descriptor. -/
inductive ParamType where
  | str
  | num
  | obj
  | enum (vals : List String)
deriving Repr, DecidableEq

/-- One named parameter of a tool descriptor. -/
structure ParamSpec where
  name : String
  type : ParamType
deriving Repr, DecidableEq

/-- One operation descriptor of the tool catalog (name, description,
parameter shapes, required-parameter names). -/
structure ToolDef where
  name : String
  description : String
  params : List ParamSpec
  required : List String
deriving Repr, DecidableEq

/-- Catalog entry for `deleteUser` (source lines 250-263). -/
def deleteUserTool : ToolDef :=
  { name := "deleteUser"
    description := "Delete a user permanently from the system."
    params := [{ name := "userId", type := .str }]
    required := ["userId"] }

/-- Catalog entry for `updateUser` (source lines 264-281). -/
def updateUserTool : ToolDef :=
  { name := "updateUser"
    description := "Update user details like credits."
    params := [{ name := "userId", type := .str }, { name := "updates", type := .obj }]
    required := ["userId", "updates"] }

/-- Catalog entry for `grantSubscription` (source lines 282-297). -/
def grantSubscriptionTool : ToolDef :=
  { name := "grantSubscription"
    description := "Give a premium subscription to a user."
    params :=
      [{ name := "userId", type := .str },
       { name := "plan", type := .enum ["WEEKLY", "MONTHLY", "YEARLY", "LIFETIME"] },
       { name := "level", type := .enum ["BASIC", "ULTRA"] }]
    required := ["userId", "plan", "level"] }

/-- Catalog entry for `banUser` (source lines 298-312). -/
def banUserTool : ToolDef :=
  { name := "banUser"
    description := "Lock/Ban a user account."
    params := [{ name := "userId", type := .str }, { name := "reason", type := .str }]
    required := ["userId"] }

/-- Catalog entry for `unbanUser` (source lines 313-326). -/
def unbanUserTool : ToolDef :=
  { name := "unbanUser"
    description := "Unlock/Unban a user account."
    params := [{ name := "userId", type := .str }]
    required := ["userId"] }

/-- Catalog entry for `broadcastMessage` (source lines 327-340). -/
def broadcastMessageTool : ToolDef :=
  { name := "broadcastMessage"
    description := "Set a global notice/banner text for all users."
    params := [{ name := "message", type := .str }]
    required := ["message"] }

/-- Catalog entry for `sendInboxMessage` (source lines 341-355). -/
def sendInboxMessageTool : ToolDef :=
  { name := "sendInboxMessage"
    description := "Send a personal message to a specific user's inbox."
    params := [{ name := "userId", type := .str }, { name := "text", type := .str }]
    required := ["userId", "text"] }

/-- Catalog entry for `createWeeklyTest` (source lines 356-371). -/
def createWeeklyTestTool : ToolDef :=
  { name := "createWeeklyTest"
    description := "Create a new Weekly Test (structure only)."
    params :=
      [{ name := "name", type := .str },
       { name := "subject", type := .str },
       { name := "questionCount", type := .num }]
    required := ["name", "subject", "questionCount"] }

/-- Catalog entry for `scanUsers` (source lines 372-385). -/
def scanUsersTool : ToolDef :=
  { name := "scanUsers"
    description := "List users based on a filter."
    params := [{ name := "filter", type := .enum ["ALL", "PREMIUM", "FREE", "INACTIVE"] }]
    required := ["filter"] }

/-- Catalog entry for `updateSystemSettings` (source lines 386-402). -/
def updateSystemSettingsTool : ToolDef :=
  { name := "updateSystemSettings"
    description := "Update global system settings (Theme, AI Limits, Maintenance)."
    params := [{ name := "updates", type := .obj }]
    required := ["updates"] }

/-- The `adminTools` catalog (source lines 249-403), in source order. -/
def adminTools : List ToolDef :=
  [deleteUserTool, updateUserTool, grantSubscriptionTool, banUserTool,
   unbanUserTool, broadcastMessageTool, sendInboxMessageTool,
   createWeeklyTestTool, scanUsersTool, updateSystemSettingsTool]

/-- Parse a plan enum string into the `Plan` union. -/
def parsePlan : String → Option Plan
  | "WEEKLY" => some .WEEKLY
  | "MONTHLY" => some .MONTHLY
  | "YEARLY" => some .YEARLY
  | "LIFETIME" => some .LIFETIME
  | _ => none

/-- Parse a level enum string into the `Level` union. -/
def parseLevel : String → Option Level
  | "BASIC" => some .BASIC
  | "ULTRA" => some .ULTRA
  | _ => none

/-- Parse a filter enum string into the `ScanFilter` union. -/
def parseFilter : String → Option ScanFilter
  | "ALL" => some .ALL
  | "PREMIUM" => some .PREMIUM
  | "FREE" => some .FREE
  | "INACTIVE" => some .INACTIVE
  | _ => none

/-- Extract a string-valued argument. -/
def getStrArg (args : List (String × JsonVal)) (k : String) : Option String :=
  match lookupKey args k with
  | some (.str s) => some s
  | _ => none

/-- Extract a number-valued argument. -/
def getNumArg (args : List (String × JsonVal)) (k : String) : Option Int :=
  match lookupKey args k with
  | some (.num n) => some n
  | _ => none

/-- Extract an object-valued argument. -/
def getObjArg (args : List (String × JsonVal)) (k : String) :
    Option (List (String × JsonVal)) :=
  match lookupKey args k with
  | some (.obj fields) => some fields
  | _ => none

/-- Modelled from the spec: decoding of the dynamic `updates` mapping
accepted by `updateUser` into typed user fields.  The dispatcher is not
among the given source files; spec section 9 prescribes representing the
mapping "as a mapping from field name to a tagged value variant,
validated against a known field allow-list before merge".  Fields
outside the allow-list are ignored. -/
def decodeUserPatch (fields : List (String × JsonVal)) : UserPatch :=
  fields.foldl
    (fun p f =>
      match f with
      | ("name", .str s) => { p with name := some s }
      | ("email", .str s) => { p with email := some s }
      | ("role", .str s) => { p with role := some s }
      | ("credits", .num n) => { p with credits := some n }
      | ("isPremium", .bool b) => { p with isPremium := some b }
      | ("isLocked", .bool b) => { p with isLocked := some b }
      | ("subscriptionTier", .str s) => { p with subscriptionTier := some s }
      | ("subscriptionLevel", .str s) => { p with subscriptionLevel := some s }
      | ("dailyAiCount", .num n) => { p with dailyAiCount := some n }
      | ("dailyAiDate", .str s) => { p with dailyAiDate := some s }
      | _ => p)
    {}

/-- Modelled from the spec: decoding of the dynamic `updates` mapping
accepted by `updateSystemSettings`, under the same allow-list strategy
as `decodeUserPatch`. -/
def decodeSettingsPatch (fields : List (String × JsonVal)) : SettingsPatch :=
  fields.foldl
    (fun p f =>
      match f with
      | ("noticeText", .str s) => { p with noticeText := some s }
      | ("themeColor", .str s) => { p with themeColor := some s }
      | ("isAiEnabled", .bool b) => { p with isAiEnabled := some b }
      | ("maintenanceMode", .bool b) => { p with maintenanceMode := some b }
      | _ => p)
    {}

/-- A dispatch result: a confirmation message, or the data returned by
the two listing operations. -/
inductive DispatchResult where
  | msg (s : String)
  | userList (l : List UserSummary)
  | logList (l : List LogEntry)
deriving Repr, DecidableEq

/-- Lift a message-returning handler result into a dispatch result. -/
def liftMsg (r : Except Err String × Store) : Except Err DispatchResult × Store :=
  (r.1.map DispatchResult.msg, r.2)

/-- The type of a registered handler as invoked by the dispatcher: store,
call time, inactivity cutoff and raw arguments in, result and store out. -/
def HandlerFn : Type :=
  Store → Int → Int → List (String × JsonVal) → Except Err DispatchResult × Store

/-- The `ActionRegistry` map (source lines 234-246): operation name to
handler, in source order.  Argument decoding from the raw JSON mapping
to each handler's typed signature is modelled from the spec (section
4.1), since the dispatcher lives outside the given source files. -/
def ActionRegistry : List (String × HandlerFn) :=
  [("deleteUser", fun st _now _monthAgo args =>
      match getStrArg args "userId" with
      | some uid => liftMsg (deleteUser st uid)
      | none => (.error (.invalidArguments "deleteUser"), st)),
   ("updateUser", fun st _now _monthAgo args =>
      match getStrArg args "userId", getObjArg args "updates" with
      | some uid, some fields => liftMsg (updateUser st uid (decodeUserPatch fields))
      | _, _ => (.error (.invalidArguments "updateUser"), st)),
   ("banUser", fun st _now _monthAgo args =>
      match getStrArg args "userId" with
      | some uid => liftMsg (banUser st uid ((getStrArg args "reason").getD ""))
      | none => (.error (.invalidArguments "banUser"), st)),
   ("unbanUser", fun st _now _monthAgo args =>
      match getStrArg args "userId" with
      | some uid => liftMsg (unbanUser st uid)
      | none => (.error (.invalidArguments "unbanUser"), st)),
   ("grantSubscription", fun st now _monthAgo args =>
      match getStrArg args "userId", (getStrArg args "plan").bind parsePlan,
            (getStrArg args "level").bind parseLevel with
      | some uid, some plan, some level => liftMsg (grantSubscription st now uid plan level)
      | _, _, _ => (.error (.invalidArguments "grantSubscription"), st)),
   ("broadcastMessage", fun st _now _monthAgo args =>
      match getStrArg args "message" with
      | some message => liftMsg (broadcastMessage st message)
      | none => (.error (.invalidArguments "broadcastMessage"), st)),
   ("sendInboxMessage", fun st now _monthAgo args =>
      match getStrArg args "userId", getStrArg args "text" with
      | some uid, some text => liftMsg (sendInboxMessage st now uid text)
      | _, _ => (.error (.invalidArguments "sendInboxMessage"), st)),
   ("createWeeklyTest", fun st now _monthAgo args =>
      match getStrArg args "name", getStrArg args "subject", getNumArg args "questionCount" with
      | some name, some subject, some questionCount =>
        liftMsg (createWeeklyTest st now name subject questionCount)
      | _, _, _ => (.error (.invalidArguments "createWeeklyTest"), st)),
   ("scanUsers", fun st _now monthAgo args =>
      match (getStrArg args "filter").bind parseFilter with
      | some f => (.ok (.userList (scanUsers st f monthAgo)), st)
      | none => (.error (.invalidArguments "scanUsers"), st)),
   ("getRecentLogs", fun st _now _monthAgo args =>
      (.ok (.logList (getRecentLogs st ((getNumArg args "limit").getD 20))), st)),
   ("updateSystemSettings", fun st _now _monthAgo args =>
      match getObjArg args "updates" with
      | some fields => liftMsg (updateSystemSettings st (decodeSettingsPatch fields))
      | none => (.error (.invalidArguments "updateSystemSettings"), st))]

/-- Does the raw argument mapping carry the key `k`? -/
def hasArg (args : List (String × JsonVal)) (k : String) : Bool :=
  args.any (fun a => a.1 == k)

/-- Does a value conform to a declared parameter type?  An enum-typed
parameter must be a string drawn from the enumerated set. -/
def typeMatches : ParamType → JsonVal → Bool
  | .str, .str _ => true
  | .num, .num _ => true
  | .obj, .obj _ => true
  | .enum vals, .str s => vals.contains s
  | _, _ => false

/-- Modelled from the spec: the Dispatcher's argument validation
(section 4.1) — every required parameter must be present and every
supplied parameter that the descriptor declares must match its declared
type, with enum-typed parameters drawn from the enumerated set. -/
def argsValid (t : ToolDef) (args : List (String × JsonVal)) : Bool :=
  t.required.all (fun r => hasArg args r) &&
  t.params.all (fun p =>
    match lookupKey args p.name with
    | none => true
    | some v => typeMatches p.type v)

/-- Find the descriptor of an operation name in the catalog. -/
def findTool (name : String) : Option ToolDef :=
  adminTools.find? (fun t => t.name == name)

/-- Modelled from the spec: `dispatch` (sections 4.1 and 6) — the
Dispatcher is an implicit boundary with no source file of its own.  It
fails with UnknownOperation when the name is not in the catalog, with
InvalidArguments when validation fails (synchronously, before any store
access, so the store is returned unchanged), otherwise runs the
registered handler and wraps a handler failure with the operation name. -/
def dispatch (st : Store) (now monthAgo : Int) (name : String)
    (args : List (String × JsonVal)) : Except Err DispatchResult × Store :=
  match findTool name with
  | none => (.error (.unknownOperation name), st)
  | some t =>
    if argsValid t args then
      match lookupKey ActionRegistry name with
      | some h =>
        match h st now monthAgo args with
        | (.error e, st1) => (.error (wrapErr (name ++ ": ") e), st1)
        | (.ok r, st1) => (.ok r, st1)
      | none => (.error (.unknownOperation name), st)
    else (.error (.invalidArguments name), st)

/-- Is a required parameter of the descriptor absent from the call? -/
def missingRequired (t : ToolDef) (args : List (String × JsonVal)) : Bool :=
  t.required.any (fun r => !(hasArg args r))

/-- Does the call carry, for some enum-typed parameter of the
descriptor, a string value outside the enumerated set? -/
def hasBadEnum (t : ToolDef) (args : List (String × JsonVal)) : Bool :=
  t.params.any (fun p =>
    match p.type, lookupKey args p.name with
    | .enum vals, some (.str s) => !(vals.contains s)
    | _, _ => false)

theorem lookupKey_map_set {α : Type} (l : List (String × α)) (k : String) (v : α)
    (h : l.any (fun a => a.1 == k) = true) :
    lookupKey (l.map (fun a => if a.1 == k then (k, v) else a)) k = some v := by
  induction l with
  | nil => simp at h
  | cons a t ih =>
    by_cases hk : a.1 == k
    · simp [lookupKey, List.find?, hk]
    · have hk2 : (a.1 == k) = false := by
        cases hb : (a.1 == k) with
        | true => exact absurd hb hk
        | false => rfl
      simp only [List.any_cons, hk2, Bool.false_or] at h
      simpa [lookupKey, List.find?, hk2] using ih h

theorem lookupKey_append_single {α : Type} (l : List (String × α)) (k : String) (v : α)
    (h : l.any (fun a => a.1 == k) = false) :
    lookupKey (l ++ [(k, v)]) k = some v := by
  induction l with
  | nil => simp [lookupKey]
  | cons a t ih =>
    simp only [List.any_cons, Bool.or_eq_false_iff] at h
    simpa [lookupKey, List.find?, h.1] using ih h.2

theorem lookupKey_setKey {α : Type} (l : List (String × α)) (k : String) (v : α) :
    lookupKey (setKey l k v) k = some v := by
  unfold setKey
  by_cases h : l.any (fun a => a.1 == k)
  · rw [if_pos h]; exact lookupKey_map_set l k v h
  · rw [if_neg h]
    exact lookupKey_append_single l k v (Bool.eq_false_iff.mpr h)

theorem removeKey_of_lookup_none {α : Type} (l : List (String × α)) (k : String)
    (h : lookupKey l k = none) : removeKey l k = l := by
  unfold lookupKey at h
  have hfind : l.find? (fun a => a.1 == k) = none := by
    cases hf : l.find? (fun a => a.1 == k) with
    | none => rfl
    | some a => rw [hf] at h; simp at h
  rw [List.find?_eq_none] at hfind
  unfold removeKey
  apply List.filter_eq_self.mpr
  intro a ha
  simpa using hfind a ha

/-- Success shape of `updateUser`: on an existing live record with the
live store up, it writes exactly the shallow merge of the updates over
the current record, keyed by the merged record's id. -/
theorem updateUser_ok (st : Store) (uid : String) (p : UserPatch) (u : User)
    (hrf : st.rtdbFail = false) (hu : lookupKey st.liveUsers uid = some u) :
    updateUser st uid p =
      (.ok ("User " ++ uid ++ " updated."),
       { st with liveUsers := setKey st.liveUsers (mergeUser u p).id (mergeUser u p) }) := by
  simp [updateUser, rtdbGetUser, saveUserToLive, hrf, hu]

/-- C8: whenever the underlying document-store read fails (modelled by
`firestoreFail`), `scanUsers` and `getRecentLogs` each return the empty
sequence instead of propagating an error. -/
theorem listing_handlers_swallow_read_failure (st : Store) (filter : ScanFilter)
    (monthAgo limit : Int) (h : st.firestoreFail = true) :
    scanUsers st filter monthAgo = [] ∧ getRecentLogs st limit = [] := by
  have hall : getAllUsers st = [] := by simp [getAllUsers, fsGetUsersDocs, h]
  refine ⟨?_, ?_⟩
  · cases filter <;> simp [scanUsers, hall]
  · simp [getRecentLogs, fsQueryLogs, h]

/-- Witness for C8 at a concrete failing store. -/
def emptyStore : Store :=
  { users := [], liveUsers := [], settings := none, logs := [],
    firestoreFail := false, rtdbFail := false }

/-- A concrete store whose document store is down. -/
def fsDownEmptyStore : Store := { emptyStore with firestoreFail := true }

theorem listing_handlers_swallow_read_failure_witness :
    scanUsers fsDownEmptyStore .INACTIVE 0 = [] ∧ getRecentLogs fsDownEmptyStore 20 = [] :=
  listing_handlers_swallow_read_failure fsDownEmptyStore .INACTIVE 0 20 rfl

/-- C9: `banUser` performs exactly the same store mutation and returns
the same result as `updateUser` with the lock flag set to true, for
every reason string (the reason has no effect on the outcome), and
`unbanUser` likewise equals `updateUser` with the lock flag false. -/
theorem ban_unban_delegate_to_updateUser (st : Store) (uid reason reason2 : String) :
    banUser st uid reason = updateUser st uid { isLocked := some true } ∧
    banUser st uid reason = banUser st uid reason2 ∧
    unbanUser st uid = updateUser st uid { isLocked := some false } :=
  ⟨rfl, rfl, rfl⟩

/-- C10: every operation name declared in the `adminTools` catalog is a
key of the `ActionRegistry` handler map, but not conversely: the
registry's `getRecentLogs` key has no descriptor in the catalog. -/
theorem catalog_names_subset_registry :
    (adminTools.all (fun t => (lookupKey ActionRegistry t.name).isSome)) = true ∧
    (lookupKey ActionRegistry "getRecentLogs").isSome = true ∧
    findTool "getRecentLogs" = none := by
  refine ⟨by decide, by decide, by decide⟩

/-- A concrete user for witnesses, stored under id `u1`. -/
def wUser : User :=
  { id := "u1", name := "Alice", email := "alice@example.com", role := "STUDENT",
    credits := 7, isPremium := false, subscriptionTier := "FREE",
    subscriptionLevel := "BASIC", subscriptionEndDate := none, isLocked := false,
    inbox := [], subscriptionHistory := [], grantedByAdmin := false,
    lastActiveTime := some 5, dailyAiCount := 0, dailyAiDate := "2026-01-01" }

/-- A concrete healthy store holding only `wUser`. -/
def wStore : Store :=
  { users := [("u1", wUser)], liveUsers := [("u1", wUser)], settings := none,
    logs := [], firestoreFail := false, rtdbFail := false }

/-- C2 (amended): with the live store up and no live record for `uid`,
the five existence-checking user write handlers fail with NotFound and
leave the whole store untouched, while `deleteUser` performs no
existence check: it succeeds, leaving the live store unchanged and
removing the durable record of that id if one exists. -/
theorem userWriteHandlers_notFound_on_missing_user (st : Store) (uid : String)
    (p : UserPatch) (reason : String) (now : Int) (plan : Plan) (level : Level)
    (text : String) (hrf : st.rtdbFail = false)
    (hu : lookupKey st.liveUsers uid = none) :
    updateUser st uid p =
      (.error (wrapErr "Failed to update user: " (.notFound "User not found")), st) ∧
    banUser st uid reason =
      (.error (wrapErr "Failed to update user: " (.notFound "User not found")), st) ∧
    unbanUser st uid =
      (.error (wrapErr "Failed to update user: " (.notFound "User not found")), st) ∧
    grantSubscription st now uid plan level = (.error (.notFound "User not found"), st) ∧
    sendInboxMessage st now uid text = (.error (.notFound "User not found"), st) ∧
    (st.firestoreFail = false →
      deleteUser st uid =
        (.ok ("User " ++ uid ++ " deleted successfully from Firestore and RTDB."),
         { st with users := removeKey st.users uid })) := by
  have hupd : ∀ q : UserPatch,
      updateUser st uid q =
        (.error (wrapErr "Failed to update user: " (.notFound "User not found")), st) := by
    intro q
    simp [updateUser, rtdbGetUser, hrf, hu]
  refine ⟨hupd p, hupd _, hupd _, ?_, ?_, ?_⟩
  · simp [grantSubscription, rtdbGetUser, hrf, hu]
  · simp [sendInboxMessage, rtdbGetUser, hrf, hu]
  · intro hff
    have hlive : removeKey st.liveUsers uid = st.liveUsers :=
      removeKey_of_lookup_none _ _ hu
    simp [deleteUser, fsDeleteUser, rtdbRemoveUser, hff, hrf, hlive]

/-- C2 counterexample: on a healthy store with no record of id `ghost`
anywhere, the write handler `deleteUser` does not fail with NotFound —
it succeeds and changes nothing, refuting the claim for `deleteUser`. -/
theorem deleteUser_missing_user_no_notFound_cex :
    lookupKey emptyStore.liveUsers "ghost" = none ∧
    lookupKey emptyStore.users "ghost" = none ∧
    deleteUser emptyStore "ghost" =
      (.ok "User ghost deleted successfully from Firestore and RTDB.", emptyStore) :=
  ⟨rfl, rfl, rfl⟩

/-- Witness for the amended C2 at a concrete store and patch. -/
theorem userWriteHandlers_notFound_witness :
    updateUser emptyStore "u1" { credits := some 500 } =
      (.error (wrapErr "Failed to update user: " (.notFound "User not found")), emptyStore) :=
  (userWriteHandlers_notFound_on_missing_user emptyStore "u1" { credits := some 500 }
    "spam" 0 .WEEKLY .BASIC "hi" rfl rfl).1

/-- One field of the shallow-merge contract: the written value is the
supplied one when the field is named in the mapping, and the previously
stored one when it is not. -/
def FieldMerged {α : Type} (old : α) (patch : Option α) (new : α) : Prop :=
  (∀ x, patch = some x → new = x) ∧ (patch = none → new = old)

theorem fieldMerged_getD {α : Type} (old : α) (patch : Option α) :
    FieldMerged old patch (patch.getD old) := by
  constructor
  · intro x hx; simp [hx]
  · intro hx; simp [hx]

/-- The full shallow-merge contract of `updateUser` between the
previously stored record `u`, the supplied mapping `p` and the written
record `w`, field by field. -/
def MergedFields (u : User) (p : UserPatch) (w : User) : Prop :=
  FieldMerged u.id p.id w.id ∧
  FieldMerged u.name p.name w.name ∧
  FieldMerged u.email p.email w.email ∧
  FieldMerged u.role p.role w.role ∧
  FieldMerged u.credits p.credits w.credits ∧
  FieldMerged u.isPremium p.isPremium w.isPremium ∧
  FieldMerged u.subscriptionTier p.subscriptionTier w.subscriptionTier ∧
  FieldMerged u.subscriptionLevel p.subscriptionLevel w.subscriptionLevel ∧
  FieldMerged u.subscriptionEndDate p.subscriptionEndDate w.subscriptionEndDate ∧
  FieldMerged u.isLocked p.isLocked w.isLocked ∧
  FieldMerged u.inbox p.inbox w.inbox ∧
  FieldMerged u.subscriptionHistory p.subscriptionHistory w.subscriptionHistory ∧
  FieldMerged u.grantedByAdmin p.grantedByAdmin w.grantedByAdmin ∧
  FieldMerged u.lastActiveTime p.lastActiveTime w.lastActiveTime ∧
  FieldMerged u.dailyAiCount p.dailyAiCount w.dailyAiCount ∧
  FieldMerged u.dailyAiDate p.dailyAiDate w.dailyAiDate

theorem mergeUser_mergedFields (u : User) (p : UserPatch) :
    MergedFields u p (mergeUser u p) :=
  ⟨fieldMerged_getD _ _, fieldMerged_getD _ _, fieldMerged_getD _ _,
   fieldMerged_getD _ _, fieldMerged_getD _ _, fieldMerged_getD _ _,
   fieldMerged_getD _ _, fieldMerged_getD _ _, fieldMerged_getD _ _,
   fieldMerged_getD _ _, fieldMerged_getD _ _, fieldMerged_getD _ _,
   fieldMerged_getD _ _, fieldMerged_getD _ _, fieldMerged_getD _ _,
   fieldMerged_getD _ _⟩

/-- C5: on an existing user, `updateUser` writes back a record in which
each field named in the supplied mapping equals exactly the supplied
value and every other field equals its previously stored value (shallow
merge, not replacement). -/
theorem updateUser_shallow_merge (st : Store) (uid : String) (p : UserPatch)
    (u : User) (hrf : st.rtdbFail = false)
    (hu : lookupKey st.liveUsers uid = some u) :
    ∃ w : User,
      updateUser st uid p =
        (.ok ("User " ++ uid ++ " updated."),
         { st with liveUsers := setKey st.liveUsers w.id w }) ∧
      lookupKey (updateUser st uid p).2.liveUsers w.id = some w ∧
      MergedFields u p w := by
  refine ⟨mergeUser u p, updateUser_ok st uid p u hrf hu, ?_, mergeUser_mergedFields u p⟩
  rw [updateUser_ok st uid p u hrf hu]
  exact lookupKey_setKey _ _ _

/-- Witness for C5: updating `credits` to 500 on a concrete user. -/
theorem updateUser_shallow_merge_witness :
    ∃ w : User,
      updateUser wStore "u1" { credits := some 500 } =
        (.ok ("User " ++ "u1" ++ " updated."),
         { wStore with liveUsers := setKey wStore.liveUsers w.id w }) ∧
      lookupKey (updateUser wStore "u1" { credits := some 500 }).2.liveUsers w.id = some w ∧
      MergedFields wUser { credits := some 500 } w :=
  updateUser_shallow_merge wStore "u1" { credits := some 500 } wUser rfl rfl

/-- Success shape of `grantSubscription`: on an existing live record it
reduces to `updateUser` with the grant patch built from that record. -/
theorem grantSubscription_ok (st : Store) (now : Int) (uid : String)
    (plan : Plan) (level : Level) (u : User) (hrf : st.rtdbFail = false)
    (hu : lookupKey st.liveUsers uid = some u) :
    grantSubscription st now uid plan level =
      updateUser st uid (grantPatch now plan level u) := by
  simp [grantSubscription, rtdbGetUser, hrf, hu]

/-- C3: on an existing user, a WEEKLY/BASIC grant succeeds, sets the
user's `subscriptionEndDate` to exactly 7 days after the call time, and
prepends exactly one new history entry with tier `WEEKLY`, `isFree`
true and `grantSource` `ADMIN`, leaving all prior entries unchanged. -/
theorem grantSubscription_weekly_basic (st : Store) (now : Int) (uid : String)
    (u : User) (hrf : st.rtdbFail = false)
    (hu : lookupKey st.liveUsers uid = some u) (hid : u.id = uid) :
    ∃ (w : User) (e : SubscriptionHistoryEntry),
      (grantSubscription st now uid .WEEKLY .BASIC).1 =
        .ok ("User " ++ uid ++ " updated.") ∧
      lookupKey (grantSubscription st now uid .WEEKLY .BASIC).2.liveUsers uid = some w ∧
      w.subscriptionEndDate = some (now + 7 * msPerDay) ∧
      w.subscriptionHistory = e :: u.subscriptionHistory ∧
      e.tier = "WEEKLY" ∧ e.isFree = true ∧ e.grantSource = "ADMIN" := by
  rw [grantSubscription_ok st now uid .WEEKLY .BASIC u hrf hu,
      updateUser_ok st uid _ u hrf hu]
  refine ⟨mergeUser u (grantPatch now .WEEKLY .BASIC u),
          grantHistoryEntry now .WEEKLY .BASIC, rfl, ?_, ?_, ?_, rfl, rfl, rfl⟩
  · have hwid : (mergeUser u (grantPatch now .WEEKLY .BASIC u)).id = uid := by
      simp [mergeUser, grantPatch, hid]
    dsimp only
    rw [hwid]
    exact lookupKey_setKey _ _ _
  · simp [mergeUser, grantPatch, grantEndDate]
  · simp [mergeUser, grantPatch]

/-- Witness for C3 at a concrete user and call time. -/
theorem grantSubscription_weekly_basic_witness :
    ∃ (w : User) (e : SubscriptionHistoryEntry),
      (grantSubscription wStore 1000 "u1" .WEEKLY .BASIC).1 =
        .ok ("User " ++ "u1" ++ " updated.") ∧
      lookupKey (grantSubscription wStore 1000 "u1" .WEEKLY .BASIC).2.liveUsers "u1" = some w ∧
      w.subscriptionEndDate = some (1000 + 7 * msPerDay) ∧
      w.subscriptionHistory = e :: wUser.subscriptionHistory ∧
      e.tier = "WEEKLY" ∧ e.isFree = true ∧ e.grantSource = "ADMIN" :=
  grantSubscription_weekly_basic wStore 1000 "u1" wUser rfl rfl rfl

/-- C7: on an existing user, a LIFETIME grant of either level leaves the
user's `subscriptionEndDate` unset (no date value) and the prepended
history entry's end marker equal to the lifetime sentinel. -/
theorem grantSubscription_lifetime (st : Store) (now : Int) (uid : String)
    (level : Level) (u : User) (hrf : st.rtdbFail = false)
    (hu : lookupKey st.liveUsers uid = some u) (hid : u.id = uid) :
    ∃ (w : User) (e : SubscriptionHistoryEntry),
      (grantSubscription st now uid .LIFETIME level).1 =
        .ok ("User " ++ uid ++ " updated.") ∧
      lookupKey (grantSubscription st now uid .LIFETIME level).2.liveUsers uid = some w ∧
      w.subscriptionEndDate = none ∧
      w.subscriptionHistory = e :: u.subscriptionHistory ∧
      e.endDate = HistEnd.lifetime := by
  rw [grantSubscription_ok st now uid .LIFETIME level u hrf hu,
      updateUser_ok st uid _ u hrf hu]
  refine ⟨mergeUser u (grantPatch now .LIFETIME level u),
          grantHistoryEntry now .LIFETIME level, rfl, ?_, ?_, ?_, rfl⟩
  · have hwid : (mergeUser u (grantPatch now .LIFETIME level u)).id = uid := by
      simp [mergeUser, grantPatch, hid]
    dsimp only
    rw [hwid]
    exact lookupKey_setKey _ _ _
  · simp [mergeUser, grantPatch, grantEndDate]
  · simp [mergeUser, grantPatch]

/-- Witness for C7 at a concrete user and call time. -/
theorem grantSubscription_lifetime_witness :
    ∃ (w : User) (e : SubscriptionHistoryEntry),
      (grantSubscription wStore 1000 "u1" .LIFETIME .ULTRA).1 =
        .ok ("User " ++ "u1" ++ " updated.") ∧
      lookupKey (grantSubscription wStore 1000 "u1" .LIFETIME .ULTRA).2.liveUsers "u1" = some w ∧
      w.subscriptionEndDate = none ∧
      w.subscriptionHistory = e :: wUser.subscriptionHistory ∧
      e.endDate = HistEnd.lifetime :=
  grantSubscription_lifetime wStore 1000 "u1" .ULTRA wUser rfl rfl rfl

/-- A concrete store holding `wUser` whose document store is down while
the live store is healthy. -/
def fsDownStore : Store :=
  { users := [("u1", wUser)], liveUsers := [("u1", wUser)], settings := none,
    logs := [], firestoreFail := true, rtdbFail := false }

/-- C4 counterexample: when the durable-store deletion throws (document
store down) while the live store is healthy, `deleteUser` rethrows at
once and the live record is still present afterwards — the live-store
removal was not attempted. -/
theorem deleteUser_skips_live_removal_cex :
    fsDownStore.rtdbFail = false ∧
    deleteUser fsDownStore "u1" =
      (.error (wrapErr ("Failed to delete user " ++ "u1" ++ ": ")
        (.storeError "firestore delete failed")), fsDownStore) ∧
    lookupKey (deleteUser fsDownStore "u1").2.liveUsers "u1" = some wUser :=
  ⟨rfl, rfl, rfl⟩

/-- C4 (amended): `deleteUser` attempts the durable-store deletion
first and the live-store removal only after it succeeds; when the
durable-store deletion throws, the wrapped error is rethrown and the
live-store removal is not attempted (the whole store is left as it
was); when the durable deletion succeeds and the live store is up, both
records are removed. -/
theorem deleteUser_sequential (st : Store) (uid : String) :
    (st.firestoreFail = true →
      deleteUser st uid =
        (.error (wrapErr ("Failed to delete user " ++ uid ++ ": ")
          (.storeError "firestore delete failed")), st)) ∧
    (st.firestoreFail = false → st.rtdbFail = false →
      deleteUser st uid =
        (.ok ("User " ++ uid ++ " deleted successfully from Firestore and RTDB."),
         { st with users := removeKey st.users uid,
                   liveUsers := removeKey st.liveUsers uid })) := by
  constructor
  · intro h
    simp [deleteUser, fsDeleteUser, h]
  · intro hff hrf
    simp [deleteUser, fsDeleteUser, rtdbRemoveUser, hff, hrf]

/-- Witness for the amended C4 on both sides of the first failure. -/
theorem deleteUser_sequential_witness :
    deleteUser fsDownStore "u1" =
      (.error (wrapErr ("Failed to delete user " ++ "u1" ++ ": ")
        (.storeError "firestore delete failed")), fsDownStore) ∧
    deleteUser wStore "u1" =
      (.ok ("User " ++ "u1" ++ " deleted successfully from Firestore and RTDB."),
       { wStore with users := removeKey wStore.users "u1",
                     liveUsers := removeKey wStore.liveUsers "u1" }) :=
  ⟨(deleteUser_sequential fsDownStore "u1").1 rfl,
   (deleteUser_sequential wStore "u1").2 rfl rfl⟩

/-- C6: `scanUsers` with the INACTIVE filter returns exactly the
summaries of those users whose `lastActiveTime` is absent or strictly
older than the one-month cutoff (a user active exactly at the cutoff is
not included, since the comparison is strict), and every returned
element is the six-field summary projection of some stored user, never
a full record. -/
theorem scanUsers_inactive_exact (st : Store) (monthAgo : Int) (s : UserSummary) :
    s ∈ scanUsers st .INACTIVE monthAgo ↔
      ∃ u : User, u ∈ getAllUsers st ∧
        (u.lastActiveTime = none ∨ ∃ t, u.lastActiveTime = some t ∧ t < monthAgo) ∧
        s = summarize u := by
  have hpred : ∀ u : User,
      (match u.lastActiveTime with
       | none => true
       | some t => decide (t < monthAgo)) = true ↔
      (u.lastActiveTime = none ∨ ∃ t, u.lastActiveTime = some t ∧ t < monthAgo) := by
    intro u
    cases h : u.lastActiveTime with
    | none => simp [h]
    | some t => simp [h]
  constructor
  · intro hs
    simp only [scanUsers, List.mem_map] at hs
    obtain ⟨u, hu, hsum⟩ := hs
    rw [List.mem_filter] at hu
    exact ⟨u, hu.1, (hpred u).mp hu.2, hsum.symm⟩
  · rintro ⟨u, hu, hcond, rfl⟩
    simp only [scanUsers, List.mem_map]
    exact ⟨u, List.mem_filter.mpr ⟨hu, (hpred u).mpr hcond⟩, rfl⟩

theorem argsValid_false_of_missingRequired (t : ToolDef)
    (args : List (String × JsonVal)) (h : missingRequired t args = true) :
    argsValid t args = false := by
  rcases List.any_eq_true.mp h with ⟨r, hr, hneg⟩
  have hfa : hasArg args r = false := by simpa using hneg
  cases hall : t.required.all (fun x => hasArg args x) with
  | true =>
    have h2 := List.all_eq_true.mp hall r hr
    rw [hfa] at h2
    simp at h2
  | false => simp [argsValid, hall]

theorem argsValid_false_of_hasBadEnum (t : ToolDef)
    (args : List (String × JsonVal)) (h : hasBadEnum t args = true) :
    argsValid t args = false := by
  rcases List.any_eq_true.mp h with ⟨p, hp, hbad⟩
  cases hpt : p.type with
  | str => simp [hpt] at hbad
  | num => simp [hpt] at hbad
  | obj => simp [hpt] at hbad
  | enum vals =>
    cases hl : lookupKey args p.name with
    | none => simp [hpt, hl] at hbad
    | some v =>
      cases v with
      | num n => simp [hpt, hl] at hbad
      | bool b => simp [hpt, hl] at hbad
      | obj o => simp [hpt, hl] at hbad
      | str s =>
        simp only [hpt, hl] at hbad
        have hc : vals.contains s = false := by simpa using hbad
        cases hall : t.params.all (fun q =>
            match lookupKey args q.name with
            | none => true
            | some w => typeMatches q.type w) with
        | false => simp [argsValid, hall]
        | true =>
          have h2 := List.all_eq_true.mp hall p hp
          simp only [hl, hpt, typeMatches] at h2
          rw [hc] at h2
          simp at h2

/-- C1: a dispatch call whose operation name is in the catalog but whose
arguments are invalid — a required parameter absent, or an enum-typed
parameter carrying a value outside its declared set — fails with
InvalidArguments and returns the store exactly as it was: no store read
or write occurs. -/
theorem dispatch_invalid_args_rejected (st : Store) (now monthAgo : Int)
    (name : String) (args : List (String × JsonVal)) (t : ToolDef)
    (hfind : findTool name = some t)
    (hbad : missingRequired t args = true ∨ hasBadEnum t args = true) :
    dispatch st now monthAgo name args = (.error (.invalidArguments name), st) := by
  have hv : argsValid t args = false := by
    cases hbad with
    | inl h => exact argsValid_false_of_missingRequired t args h
    | inr h => exact argsValid_false_of_hasBadEnum t args h
  simp [dispatch, hfind, hv]

/-- Arguments for `grantSubscription` whose plan value lies outside the
declared enum set. -/
def badPlanArgs : List (String × JsonVal) :=
  [("userId", .str "u1"), ("plan", .str "GOLD"), ("level", .str "BASIC")]

/-- Witness for C1: a `grantSubscription` call with an out-of-enum plan
is rejected with InvalidArguments and the store is unchanged. -/
theorem dispatch_invalid_args_rejected_witness :
    dispatch emptyStore 0 0 "grantSubscription" badPlanArgs =
      (.error (.invalidArguments "grantSubscription"), emptyStore) :=
  dispatch_invalid_args_rejected emptyStore 0 0 "grantSubscription" badPlanArgs
    grantSubscriptionTool (by decide) (Or.inr (by decide))
